import Mathlib

/-!
# rpi-pico-library-test: DS3231 clock shown on an SSD1306 display

A shallow embedding of `src/rpi-pico-library-test.c`.

The program talks to three libraries whose sources are not part of the file
(`pico/stdlib.h`, `ssd1306_i2c.h`, `ds3231.h`).  Their entry points are kept abstract:

* every call the program makes is recorded, in program order, as an `Event`;
* the display buffer `display_buf` is threaded explicitly, and the glyph routines
  `WriteString` / `WriteCentered` are arbitrary functions on it (`Libs`);
* what the sensor reads return is an input of each cycle (`CycleInput`).

`sprintf` is embedded for the conversions the program uses (`%02d` and `%.1f`), as
the string it produces.  The destination arrays hold 16 bytes; the strings of a valid
reading have 8 and 10 characters.  A `float` is taken as a finite value (`CFloat`), which
is what a temperature register decodes to.  The signed overflow of `loop_count++` at
`INT_MAX` is undefined in C: the loop model yields no next state there.
-/

namespace PicoTest

/-! ## Values -/

/-- The value of a finite C `float`: `(-1)^neg * mant * 2^exp`.  Every finite
binary floating-point number has exactly this shape, and the promotion to `double`
made by a variadic call keeps the value. -/
structure CFloat where
  neg : Bool
  mant : Nat
  exp : Int
deriving DecidableEq

/-- The `time` member of `ds3231_datetime_t`. -/
structure ds3231_time_t where
  hours : Int
  minutes : Int
  seconds : Int
deriving DecidableEq

/-- The `date` member of `ds3231_datetime_t`. -/
structure ds3231_date_t where
  day : Int
  month : Int
  year : Int
  weekday : Int
deriving DecidableEq

/-- The record filled by `ds3231_read_datetime`.  Its declaration is in `ds3231.h`;
the members the program reads are integers, taken here after integer promotion. -/
structure ds3231_datetime_t where
  time : ds3231_time_t
  date : ds3231_date_t
deriving DecidableEq

/-- An argument of a `printf` call. -/
inductive Arg where
  | int (v : Int)
  | float (v : CFloat)
deriving DecidableEq

/-- One call into a library, as the program makes it. -/
inductive Event (Area : Type) where
  | stdio_init_all
  | sleep_ms (ms : Nat)
  | printf (fmt : String) (args : List Arg)
  | i2c_init (port : Nat) (baud : Nat)
  | gpio_set_function_i2c (pin : Nat)
  | gpio_pull_up (pin : Nat)
  | SSD1306_init
  | ds3231_init
  | ds3231_is_present
  | ds3231_read_datetime
  | ds3231_read_temperature
  | CLEAR_BUFFER
  | WriteString (x y : Int) (s : String)
  | WriteCentered (y : Int) (s : String)
  | calc_render_area_buflen (area : Area)
  | render (buf : List Nat) (area : Area)

/-- The constants, macros and routines that the headers provide.  `Area` is
`struct render_area`. -/
structure Libs (Area : Type) where
  SSD1306_BUF_LEN : Nat
  SSD1306_I2C_CLK : Nat
  SSD1306_I2C_SDA_PIN : Nat
  SSD1306_I2C_SCL_PIN : Nat
  i2c0 : Nat
  DS3231_I2C_PORT : Nat
  DS3231_SDA_PIN : Nat
  DS3231_SCL_PIN : Nat
  SSD1306_FULL_SCREEN_AREA : Area
  calc_render_area_buflen : Area → Area
  WriteString : List Nat → Int → Int → String → List Nat
  WriteCentered : List Nat → Int → String → List Nat

/-- What the two sensor reads of one cycle return.  `datetime` is the content of the
local record `datetime` after the call `ds3231_read_datetime(&datetime)`: the decoded
registers when `dt_ok`, and otherwise whatever the record holds (the function never
initialises it).  `temp` is `none` when `ds3231_read_temperature` returns false. -/
structure CycleInput where
  dt_ok : Bool
  datetime : ds3231_datetime_t
  temp : Option CFloat
deriving DecidableEq

/-- The display buffer together with the calls made so far. -/
structure Out (Area : Type) where
  buf : List Nat
  events : List (Event Area)

/-! ## `sprintf` conversions -/

/-- Pad a digit string on the left with `'0'` up to `width` characters. -/
def zero_pad (width : Nat) (ds : List Char) : List Char :=
  List.replicate (width - ds.length) '0' ++ ds

/-- The conversion `%02d`: decimal, minimum field width 2, zero padded; the sign of a
negative value counts towards the width. -/
def fmt_02d (v : Int) : List Char :=
  if v < 0 then '-' :: zero_pad 1 (Nat.toDigits 10 v.natAbs)
  else zero_pad 2 (Nat.toDigits 10 v.toNat)

/-- The magnitude of `t` in tenths, rounded to nearest with ties to even. -/
def tenths (t : CFloat) : Nat :=
  match t.exp with
  | Int.ofNat k => t.mant * 2 ^ k * 10
  | Int.negSucc k =>
    let den := 2 ^ (k + 1)
    let q := (t.mant * 10) / den
    let r := (t.mant * 10) % den
    if 2 * r < den then q
    else if den < 2 * r then q + 1
    else if q % 2 = 0 then q else q + 1

/-- The conversion `%.1f` of a finite value. -/
def fmt_1f (t : CFloat) : List Char :=
  (if t.neg then ['-'] else []) ++ Nat.toDigits 10 (tenths t / 10)
    ++ ['.', Nat.digitChar (tenths t % 10)]

/-- The string built by `sprintf(time_str, "%02d:%02d:%02d", hours, minutes, seconds)`. -/
def sprintf_time (dt : ds3231_datetime_t) : String :=
  String.mk (fmt_02d dt.time.hours ++ [':'] ++ fmt_02d dt.time.minutes ++ [':']
    ++ fmt_02d dt.time.seconds)

/-- The string built by `sprintf(date_str, "%02d/%02d/20%02d", day, month, year)`. -/
def sprintf_date (dt : ds3231_datetime_t) : String :=
  String.mk (fmt_02d dt.date.day ++ ['/'] ++ fmt_02d dt.date.month ++ ['/', '2', '0']
    ++ fmt_02d dt.date.year)

/-- The string built by `sprintf(temp_str, "%.1fC", temperature)`. -/
def sprintf_temp (t : CFloat) : String :=
  String.mk (fmt_1f t ++ ['C'])

/-! ## The display cycle -/

variable {Area : Type}

/-- Record a call that does not touch the display buffer. -/
def call (e : Event Area) (o : Out Area) : Out Area :=
  { buf := o.buf, events := o.events ++ [e] }

/-- Modelled from the spec: the macro `SSD1306_CLEAR_BUFFER` of `ssd1306_i2c.h` is
missing; the buffer is "cleared (all pixels zero)", every one of its
`SSD1306_BUF_LEN` bytes. -/
def SSD1306_CLEAR_BUFFER (L : Libs Area) (o : Out Area) : Out Area :=
  { buf := List.replicate L.SSD1306_BUF_LEN 0, events := o.events ++ [Event.CLEAR_BUFFER] }

/-- The call `WriteString(display_buf, x, y, s)`. -/
def WriteString (L : Libs Area) (x y : Int) (s : String) (o : Out Area) : Out Area :=
  { buf := L.WriteString o.buf x y s, events := o.events ++ [Event.WriteString x y s] }

/-- The call `WriteCentered(display_buf, y, s)`. -/
def WriteCentered (L : Libs Area) (y : Int) (s : String) (o : Out Area) : Out Area :=
  { buf := L.WriteCentered o.buf y s, events := o.events ++ [Event.WriteCentered y s] }

/-- The three statements that send the buffer to the display: the full-screen area is
built, its buffer length is computed in place, and `render` gets the buffer and that
area. -/
def render_full_screen (L : Libs Area) (o : Out Area) : Out Area :=
  let full_screen := L.SSD1306_FULL_SCREEN_AREA
  let o1 := call (Event.calc_render_area_buflen full_screen) o
  let full_screen := L.calc_render_area_buflen full_screen
  call (Event.render o1.buf full_screen) o1

/-- The table `weekdays` of `display_time_and_temp`. -/
def weekdays : List String := ["", "MON", "TUE", "WED", "THU", "FRI", "SAT", "SUN"]

/-- The function `display_time_and_temp`, started on the buffer `display_buf`. -/
def display_time_and_temp (L : Libs Area) (inp : CycleInput) (display_buf : List Nat) :
    Out Area :=
  let datetime := inp.datetime
  -- Clear display buffer
  let o := SSD1306_CLEAR_BUFFER L { buf := display_buf, events := [] }
  -- Read current date/time from DS3231
  let o := call Event.ds3231_read_datetime o
  let o :=
    if inp.dt_ok then
      let o := call (Event.printf "Time: %02d:%02d:%02d Date: %02d/%02d/%02d\n"
        [Arg.int datetime.time.hours, Arg.int datetime.time.minutes,
         Arg.int datetime.time.seconds, Arg.int datetime.date.day,
         Arg.int datetime.date.month, Arg.int datetime.date.year]) o
      let o := WriteString L 0 0 (sprintf_time datetime) o
      WriteString L 0 12 (sprintf_date datetime) o
    else
      let o := call (Event.printf "ERROR: Failed to read time from DS3231\n" []) o
      WriteString L 0 0 "RTC ERROR!" o
  -- Read temperature from DS3231
  let o := call Event.ds3231_read_temperature o
  let o :=
    match inp.temp with
    | some temperature =>
      let o := call (Event.printf "Temperature: %.1fÂ°C\n" [Arg.float temperature]) o
      WriteString L 0 24 (sprintf_temp temperature) o
    | none => WriteString L 0 24 "TEMP ERR" o
  -- Display weekday
  let o :=
    if 1 ≤ datetime.date.weekday ∧ datetime.date.weekday ≤ 7 then
      WriteString L 0 36 (weekdays.getD datetime.date.weekday.toNat "") o
    else o
  -- Status line
  let o := WriteString L 0 48 "RTC + OLED OK" o
  -- Render to display
  render_full_screen L o

/-! ## Start-up and the main loop -/

/-- The function `setup_i2c_ports`. -/
def setup_i2c_ports (L : Libs Area) (o : Out Area) : Out Area :=
  -- Initialize I2C0 for SSD1306
  let o := call (Event.i2c_init L.i2c0 (L.SSD1306_I2C_CLK * 1000)) o
  let o := call (Event.gpio_set_function_i2c L.SSD1306_I2C_SDA_PIN) o
  let o := call (Event.gpio_set_function_i2c L.SSD1306_I2C_SCL_PIN) o
  let o := call (Event.gpio_pull_up L.SSD1306_I2C_SDA_PIN) o
  let o := call (Event.gpio_pull_up L.SSD1306_I2C_SCL_PIN) o
  -- Initialize I2C1 for DS3231
  let o := call (Event.i2c_init L.DS3231_I2C_PORT (100 * 1000)) o
  let o := call (Event.gpio_set_function_i2c L.DS3231_SDA_PIN) o
  let o := call (Event.gpio_set_function_i2c L.DS3231_SCL_PIN) o
  let o := call (Event.gpio_pull_up L.DS3231_SDA_PIN) o
  let o := call (Event.gpio_pull_up L.DS3231_SCL_PIN) o
  let o := call (Event.printf "I2C0 initialized for SSD1306 on pins %d,%d\n"
    [Arg.int L.SSD1306_I2C_SDA_PIN, Arg.int L.SSD1306_I2C_SCL_PIN]) o
  call (Event.printf "I2C1 initialized for DS3231 on pins %d,%d\n"
    [Arg.int L.DS3231_SDA_PIN, Arg.int L.DS3231_SCL_PIN]) o

/-- What the two start-up probes return: `ds3231_init()` and `ds3231_is_present()`. -/
structure Boot where
  init_ok : Bool
  present : Bool
deriving DecidableEq

/-- The variables that live across iterations of `while (1)`: the static buffer and
the local `int loop_count`. -/
structure LoopSt where
  display_buf : List Nat
  loop_count : Int

/-- The largest value of a 32-bit `int`. -/
def INT_MAX : Int := 2147483647

/-- The format of the periodic status line. -/
def status_fmt : String := "Display updated - Loop #%d\n"

/-- One pass through the body of `while (1)`.  The first component is the calls made;
the second is the state for the next pass, and is `none` when `loop_count++` would
leave the range of `int` (signed overflow, which C leaves undefined). -/
def loop_body (L : Libs Area) (inp : CycleInput) (st : LoopSt) :
    List (Event Area) × Option LoopSt :=
  let o := display_time_and_temp L inp st.display_buf
  -- Print status to console every 30 seconds
  let o :=
    if Int.tmod st.loop_count 30 = 0 then
      call (Event.printf status_fmt [Arg.int st.loop_count]) o
    else o
  if st.loop_count < INT_MAX then
    ((call (Event.sleep_ms 1000) o).events,
      some { display_buf := o.buf, loop_count := st.loop_count + 1 })
  else (o.events, none)

/-- The state at the start of iteration `n` (counted from 0) of the loop started in
`st0`, where `env i` is what the sensor returns in iteration `i`. -/
def loop_state (L : Libs Area) (env : Nat → CycleInput) (st0 : LoopSt) : Nat → Option LoopSt
  | 0 => some st0
  | n + 1 => (loop_state L env st0 n).bind (fun st => (loop_body L (env n) st).2)

/-- The calls made by iteration `n` of the loop; empty when the loop does not get
there. -/
def iteration_events (L : Libs Area) (env : Nat → CycleInput) (st0 : LoopSt) (n : Nat) :
    List (Event Area) :=
  match loop_state L env st0 n with
  | some st => (loop_body L (env n) st).1
  | none => []

/-- The calls made by the first `n` iterations of the loop. -/
def loop_events (L : Libs Area) (env : Nat → CycleInput) (st0 : LoopSt) : Nat →
    List (Event Area)
  | 0 => []
  | n + 1 => loop_events L env st0 n ++ iteration_events L env st0 n

/-- The part of `main` up to and including the two probes of the DS3231.  The second
component is the value `main` returns there, if it does. -/
def startup (L : Libs Area) (boot : Boot) : Out Area × Option Int :=
  -- static storage: the buffer starts zeroed
  let o : Out Area := { buf := List.replicate L.SSD1306_BUF_LEN 0, events := [] }
  let o := call Event.stdio_init_all o
  let o := call (Event.sleep_ms 3000) o
  let o := call (Event.printf "\n=== Pico Library Test: SSD1306 + DS3231 ===\n" []) o
  let o := setup_i2c_ports L o
  let o := call (Event.printf "Initializing SSD1306 OLED...\n" []) o
  let o := call Event.SSD1306_init o
  let o := call (Event.printf "SSD1306 initialized successfully\n" []) o
  let o := call (Event.printf "Initializing DS3231 RTC...\n" []) o
  let o := call Event.ds3231_init o
  if !boot.init_ok then
    (call (Event.printf "ERROR: Failed to initialize DS3231!\n" []) o, some (-1))
  else
    let o := call Event.ds3231_is_present o
    if !boot.present then
      (call (Event.printf "ERROR: DS3231 not detected!\n" []) o, some (-1))
    else
      (call (Event.printf "DS3231 initialized and detected successfully\n" []) o, none)

/-- The start-up message of `main`, from the clear to the two-second pause. -/
def splash (L : Libs Area) (o : Out Area) : Out Area :=
  let o := SSD1306_CLEAR_BUFFER L o
  let o := WriteCentered L 16 "RTC Clock" o
  let o := WriteCentered L 32 "Starting..." o
  let o := render_full_screen L o
  let o := call (Event.sleep_ms 2000) o
  call (Event.printf "Starting main loop...\n" []) o

/-- The result of observing `main`: the calls it made and, when it returned, the value
it returned. -/
structure MainOut (Area : Type) where
  events : List (Event Area)
  exit : Option Int

/-- The function `main`, observed for the first `iters` iterations of its loop. -/
def main (L : Libs Area) (boot : Boot) (env : Nat → CycleInput) (iters : Nat) :
    MainOut Area :=
  match startup L boot with
  | (o, some code) => { events := o.events, exit := some code }
  | (o, none) =>
    let o := splash L o
    -- Main loop - update display every second
    let st0 : LoopSt := { display_buf := o.buf, loop_count := 0 }
    { events := o.events ++ loop_events L env st0 iters, exit := none }

/-! ## Observations on a list of calls -/

/-- The strings passed to `WriteString` with vertical position `y`, in order. -/
def writesAt (y : Int) (evs : List (Event Area)) : List String :=
  evs.filterMap fun e =>
    match e with
    | Event.WriteString _ y1 s => if y1 = y then some s else none
    | _ => none

/-- The arguments of the calls of `render`, in order. -/
def renders (evs : List (Event Area)) : List (List Nat × Area) :=
  evs.filterMap fun e =>
    match e with
    | Event.render b a => some (b, a)
    | _ => none

/-- The number of calls of `ds3231_read_temperature`. -/
def temperature_reads (evs : List (Event Area)) : Nat :=
  evs.countP fun e =>
    match e with
    | Event.ds3231_read_temperature => true
    | _ => false

/-- All calls that change the display buffer (clears and writes), in order. -/
def buffer_calls (evs : List (Event Area)) : List (Event Area) :=
  evs.filter fun e =>
    match e with
    | Event.CLEAR_BUFFER => true
    | Event.WriteString _ _ _ => true
    | Event.WriteCentered _ _ => true
    | _ => false

/-! ## A concrete instance, for evaluation -/

/-- A small instance of the libraries: a 16-byte buffer in which `WriteString` stores
the first character code of the text at index `y / 4`. -/
def demoLibs : Libs Nat where
  SSD1306_BUF_LEN := 16
  SSD1306_I2C_CLK := 400
  SSD1306_I2C_SDA_PIN := 16
  SSD1306_I2C_SCL_PIN := 17
  i2c0 := 0
  DS3231_I2C_PORT := 1
  DS3231_SDA_PIN := 18
  DS3231_SCL_PIN := 19
  SSD1306_FULL_SCREEN_AREA := 0
  calc_render_area_buflen := fun _ => 16
  WriteString := fun b _ y s => b.set (y.toNat / 4) (s.data.headD ' ').toNat
  WriteCentered := fun b y s => b.set (y.toNat / 4) (s.data.headD ' ').toNat

/-- The reading of the first scenario: 10:15:30 on Monday 08/09/25. -/
def demoDatetime : ds3231_datetime_t :=
  { time := { hours := 10, minutes := 15, seconds := 30 },
    date := { day := 8, month := 9, year := 25, weekday := 1 } }

/-- The value 22.5, as `45 * 2^(-1)`. -/
def temp_22_5 : CFloat := { neg := false, mant := 45, exp := -1 }

/-- The value 19.0, as `19 * 2^0`. -/
def temp_19_0 : CFloat := { neg := false, mant := 19, exp := 0 }

/-! ## The calls of one display cycle -/

/-- The calls made between the datetime read and the temperature read. -/
def datetime_calls (inp : CycleInput) : List (Event Area) :=
  if inp.dt_ok then
    [Event.printf "Time: %02d:%02d:%02d Date: %02d/%02d/%02d\n"
      [Arg.int inp.datetime.time.hours, Arg.int inp.datetime.time.minutes,
       Arg.int inp.datetime.time.seconds, Arg.int inp.datetime.date.day,
       Arg.int inp.datetime.date.month, Arg.int inp.datetime.date.year],
     Event.WriteString 0 0 (sprintf_time inp.datetime),
     Event.WriteString 0 12 (sprintf_date inp.datetime)]
  else
    [Event.printf "ERROR: Failed to read time from DS3231\n" [],
     Event.WriteString 0 0 "RTC ERROR!"]

/-- The calls made after the temperature read and before the weekday test. -/
def temperature_calls (inp : CycleInput) : List (Event Area) :=
  match inp.temp with
  | some t => [Event.printf "Temperature: %.1fÂ°C\n" [Arg.float t],
      Event.WriteString 0 24 (sprintf_temp t)]
  | none => [Event.WriteString 0 24 "TEMP ERR"]

/-- The calls made by the weekday test. -/
def weekday_calls (inp : CycleInput) : List (Event Area) :=
  if 1 ≤ inp.datetime.date.weekday ∧ inp.datetime.date.weekday ≤ 7 then
    [Event.WriteString 0 36 (weekdays.getD inp.datetime.date.weekday.toNat "")]
  else []

/-- Row 2 as the specification words it: the formatted value, or `TEMP ERR`. -/
def temp_row : Option CFloat → String
  | some t => sprintf_temp t
  | none => "TEMP ERR"

/-- The two decimal digits of a value below 100, tens first. -/
def two_digits (v : Int) : List Char :=
  [Nat.digitChar (v.toNat / 10), Nat.digitChar (v.toNat % 10)]

/-- The layout `HH:MM:SS`, written from the words of the specification. -/
def HH_MM_SS (dt : ds3231_datetime_t) : String :=
  String.mk (two_digits dt.time.hours ++ [':'] ++ two_digits dt.time.minutes ++ [':']
    ++ two_digits dt.time.seconds)

/-- The layout `DD/MM/20YY`, written from the words of the specification. -/
def DD_MM_20YY (dt : ds3231_datetime_t) : String :=
  String.mk (two_digits dt.date.day ++ ['/'] ++ two_digits dt.date.month ++ ['/']
    ++ ['2', '0'] ++ two_digits dt.date.year)

/-- The abbreviations in the order of the specification: entry 1 is `MON`, entry 7
is `SUN`. -/
def weekday_names : List String := ["MON", "TUE", "WED", "THU", "FRI", "SAT", "SUN"]

/-- The buffer obtained by replaying recorded calls on a buffer. -/
def replay (L : Libs Area) : List (Event Area) → List Nat → List Nat
  | [], b => b
  | Event.CLEAR_BUFFER :: es, _ => replay L es (List.replicate L.SSD1306_BUF_LEN 0)
  | Event.WriteString x y s :: es, b => replay L es (L.WriteString b x y s)
  | Event.WriteCentered y s :: es, b => replay L es (L.WriteCentered b y s)
  | _ :: es, b => replay L es b

/-- The status lines among the calls: the arguments of each `printf` of `status_fmt`. -/
def status_lines (evs : List (Event Area)) : List (List Arg) :=
  evs.filterMap fun e =>
    match e with
    | Event.printf f a => if f = status_fmt then some a else none
    | _ => none

/-- The value a 32-bit two's-complement register holds for the integer `v`.  Used only
to describe what a target that wraps on `loop_count++` would do; the loop model itself
stops at the overflow. -/
def wrap_int32 (v : Int) : Int :=
  (v + 2147483648) % 4294967296 - 2147483648

/-- A failed datetime read next to a temperature of 19.0; the record keeps a weekday
of 3 from whatever was in it. -/
def demoFailedRead : CycleInput :=
  { dt_ok := false,
    datetime := { time := { hours := 0, minutes := 0, seconds := 0 },
                  date := { day := 0, month := 0, year := 0, weekday := 3 } },
    temp := some temp_19_0 }

/-- The sensor of the first scenario, the same in every iteration. -/
def demoEnv : Nat → CycleInput := fun _ =>
  { dt_ok := true, datetime := demoDatetime, temp := some temp_22_5 }

/-! ## Lemmas on one display cycle -/

theorem display_events (L : Libs Area) (inp : CycleInput) (display_buf : List Nat) :
    (display_time_and_temp L inp display_buf).events =
      [Event.CLEAR_BUFFER, Event.ds3231_read_datetime] ++ datetime_calls inp
        ++ [Event.ds3231_read_temperature] ++ temperature_calls inp ++ weekday_calls inp
        ++ [Event.WriteString 0 48 "RTC + OLED OK",
            Event.calc_render_area_buflen L.SSD1306_FULL_SCREEN_AREA,
            Event.render (display_time_and_temp L inp display_buf).buf
              (L.calc_render_area_buflen L.SSD1306_FULL_SCREEN_AREA)] := by
  unfold display_time_and_temp datetime_calls temperature_calls weekday_calls
  cases hdt : inp.dt_ok <;> cases htemp : inp.temp <;>
    by_cases hw : 1 ≤ inp.datetime.date.weekday ∧ inp.datetime.date.weekday ≤ 7 <;>
    simp [hw, render_full_screen, call, WriteString, SSD1306_CLEAR_BUFFER]

/-- The row-0 and row-12 writes of a cycle come from the datetime branch only. -/
theorem writesAt_time_row (L : Libs Area) (inp : CycleInput) (display_buf : List Nat) :
    writesAt 0 (display_time_and_temp L inp display_buf).events
        = (if inp.dt_ok then [sprintf_time inp.datetime] else ["RTC ERROR!"]) ∧
      writesAt 12 (display_time_and_temp L inp display_buf).events
        = (if inp.dt_ok then [sprintf_date inp.datetime] else []) := by
  rw [display_events]
  cases hdt : inp.dt_ok <;> cases htemp : inp.temp <;>
    by_cases hw : 1 ≤ inp.datetime.date.weekday ∧ inp.datetime.date.weekday ≤ 7 <;>
    simp [writesAt, datetime_calls, temperature_calls, weekday_calls, hdt, htemp, hw]

/-- The row-36 writes of a cycle come from the weekday test only. -/
theorem writesAt_weekday_row (L : Libs Area) (inp : CycleInput) (display_buf : List Nat) :
    writesAt 36 (display_time_and_temp L inp display_buf).events
        = (if 1 ≤ inp.datetime.date.weekday ∧ inp.datetime.date.weekday ≤ 7
            then [weekdays.getD inp.datetime.date.weekday.toNat ""] else []) := by
  rw [display_events]
  cases hdt : inp.dt_ok <;> cases htemp : inp.temp <;>
    by_cases hw : 1 ≤ inp.datetime.date.weekday ∧ inp.datetime.date.weekday ≤ 7 <;>
    simp [writesAt, datetime_calls, temperature_calls, weekday_calls, hdt, htemp, hw]

/-! ## Decimal digits -/

theorem digitChar_isDigit (d : Nat) (h : d < 10) : (Nat.digitChar d).isDigit = true := by
  interval_cases d <;> decide

theorem toDigitsCore_isDigit (fuel : Nat) : ∀ (n : Nat) (acc : List Char),
    (∀ c ∈ acc, c.isDigit = true) →
      ∀ c ∈ Nat.toDigitsCore 10 fuel n acc, c.isDigit = true := by
  induction fuel with
  | zero => intro n acc h; simpa [Nat.toDigitsCore] using h
  | succ f ih =>
    intro n acc h
    have hacc : ∀ c ∈ Nat.digitChar (n % 10) :: acc, c.isDigit = true := by
      intro c hc
      rcases List.mem_cons.mp hc with rfl | hc
      · exact digitChar_isDigit _ (Nat.mod_lt _ (by decide))
      · exact h c hc
    simp only [Nat.toDigitsCore]
    split
    · exact hacc
    · exact ih _ _ hacc

theorem toDigitsCore_ne_nil (fuel : Nat) : ∀ (n : Nat) (acc : List Char),
    acc ≠ [] → Nat.toDigitsCore 10 fuel n acc ≠ [] := by
  induction fuel with
  | zero => intro n acc h; simpa [Nat.toDigitsCore] using h
  | succ f ih =>
    intro n acc _
    simp only [Nat.toDigitsCore]
    split
    · simp
    · exact ih _ _ (by simp)

theorem toDigits_isDigit (n : Nat) : ∀ c ∈ Nat.toDigits 10 n, c.isDigit = true :=
  toDigitsCore_isDigit _ _ _ (by simp)

theorem toDigits_ne_nil (n : Nat) : Nat.toDigits 10 n ≠ [] := by
  unfold Nat.toDigits
  simp only [Nat.toDigitsCore]
  split
  · simp
  · exact toDigitsCore_ne_nil _ _ _ (by simp)

theorem fmt_02d_nat (n : Fin 100) : fmt_02d (n.val : Int) = two_digits (n.val : Int) := by
  revert n
  decide

theorem fmt_02d_two_digits (v : Int) (h0 : 0 ≤ v) (h1 : v < 100) :
    fmt_02d v = two_digits v := by
  obtain ⟨n, rfl⟩ := Int.eq_ofNat_of_zero_le h0
  have hn : n < 100 := by omega
  exact fmt_02d_nat ⟨n, hn⟩

/-- The value `tenths t` is a nearest integer to ten times the magnitude of `t`. -/
theorem tenths_nearest (t : CFloat) :
    (∀ k : Nat, t.exp = Int.ofNat k → tenths t = t.mant * 2 ^ k * 10) ∧
    (∀ k : Nat, t.exp = Int.negSucc k →
      2 * (tenths t * 2 ^ (k + 1)) ≤ 2 * (t.mant * 10) + 2 ^ (k + 1) ∧
      2 * (t.mant * 10) ≤ 2 * (tenths t * 2 ^ (k + 1)) + 2 ^ (k + 1)) := by
  constructor
  · intro k hk
    simp [tenths, hk]
  · intro k hk
    have hdm := Nat.div_add_mod (t.mant * 10) (2 ^ (k + 1))
    have hlt := Nat.mod_lt (t.mant * 10) (Nat.pos_pow_of_pos (k + 1) (by decide : 0 < 2))
    have hmul : (t.mant * 10 / 2 ^ (k + 1) + 1) * 2 ^ (k + 1)
        = 2 ^ (k + 1) * (t.mant * 10 / 2 ^ (k + 1)) + 2 ^ (k + 1) := by ring
    have hmul0 : (t.mant * 10 / 2 ^ (k + 1)) * 2 ^ (k + 1)
        = 2 ^ (k + 1) * (t.mant * 10 / 2 ^ (k + 1)) := by ring
    simp only [tenths, hk]
    split_ifs <;> simp only [hmul, hmul0] <;> omega

theorem display_buf_replay (L : Libs Area) (inp : CycleInput) (display_buf : List Nat) :
    (display_time_and_temp L inp display_buf).buf
      = replay L ((datetime_calls inp) ++ temperature_calls inp ++ weekday_calls inp
          ++ [Event.WriteString 0 48 "RTC + OLED OK"])
          (List.replicate L.SSD1306_BUF_LEN 0) := by
  unfold display_time_and_temp datetime_calls temperature_calls weekday_calls
  cases hdt : inp.dt_ok <;> cases htemp : inp.temp <;>
    by_cases hw : 1 ≤ inp.datetime.date.weekday ∧ inp.datetime.date.weekday ≤ 7 <;>
    simp [hw, render_full_screen, call, WriteString, SSD1306_CLEAR_BUFFER, replay]

/-- C1: in a cycle whose datetime read fails, the only text written at y=0 is
`RTC ERROR!` and nothing is written at y=12, for every outcome of the temperature
read. -/
theorem C1_failed_datetime_rows (L : Libs Area) (inp : CycleInput) (display_buf : List Nat)
    (h : inp.dt_ok = false) :
    writesAt 0 (display_time_and_temp L inp display_buf).events = ["RTC ERROR!"] ∧
    writesAt 12 (display_time_and_temp L inp display_buf).events = [] := by
  have hrow := writesAt_time_row L inp display_buf
  simpa [h] using hrow

/-- Witness for C1: the failed read of `demoFailedRead`, with a temperature of 19.0. -/
theorem C1_failed_datetime_rows_witness :
    demoFailedRead.dt_ok = false ∧
    writesAt 0 (display_time_and_temp demoLibs demoFailedRead []).events = ["RTC ERROR!"] ∧
    writesAt 12 (display_time_and_temp demoLibs demoFailedRead []).events = [] :=
  ⟨by decide, C1_failed_datetime_rows demoLibs demoFailedRead [] (by decide)⟩

/-- C2: in every cycle, for every outcome of the datetime read, the temperature is
read exactly once and the text written at y=24 is a function of that read alone:
`TEMP ERR` on failure, otherwise sign, integer digits, a point, one digit and `C`;
19.0 gives `19.0C` and 22.5 gives `22.5C`. -/
theorem C2_temperature_row (L : Libs Area) (inp : CycleInput) (display_buf : List Nat) :
    temperature_reads (display_time_and_temp L inp display_buf).events = 1 ∧
    writesAt 24 (display_time_and_temp L inp display_buf).events = [temp_row inp.temp] ∧
    temp_row none = "TEMP ERR" ∧
    (∀ t : CFloat, ∃ (ip : List Char) (d : Char),
      temp_row (some t) = String.mk ((if t.neg then ['-'] else []) ++ ip ++ ['.', d, 'C']) ∧
      ip = Nat.toDigits 10 (tenths t / 10) ∧ d = Nat.digitChar (tenths t % 10) ∧
      ip ≠ [] ∧ (∀ c ∈ ip, c.isDigit = true) ∧ d.isDigit = true) ∧
    temp_row (some temp_19_0) = "19.0C" ∧ temp_row (some temp_22_5) = "22.5C" := by
  refine ⟨?_, ?_, rfl, ?_, by decide, by decide⟩
  · rw [display_events]
    cases hdt : inp.dt_ok <;> cases htemp : inp.temp <;>
      by_cases hw : 1 ≤ inp.datetime.date.weekday ∧ inp.datetime.date.weekday ≤ 7 <;>
      simp [temperature_reads, datetime_calls, temperature_calls, weekday_calls, hdt, htemp,
        hw]
  · rw [display_events]
    cases hdt : inp.dt_ok <;> cases htemp : inp.temp <;>
      by_cases hw : 1 ≤ inp.datetime.date.weekday ∧ inp.datetime.date.weekday ≤ 7 <;>
      simp [writesAt, datetime_calls, temperature_calls, weekday_calls, hdt, htemp, hw,
        temp_row]
  · intro t
    refine ⟨Nat.toDigits 10 (tenths t / 10), Nat.digitChar (tenths t % 10), ?_, rfl, rfl,
      toDigits_ne_nil _, toDigits_isDigit _, digitChar_isDigit _ (Nat.mod_lt _ (by decide))⟩
    simp [temp_row, sprintf_temp, fmt_1f]

theorem weekdays_entry (w : Int) (h : 1 ≤ w ∧ w ≤ 7) :
    weekdays.getD w.toNat "" = weekday_names.getD (w.toNat - 1) "" := by
  obtain ⟨n, rfl⟩ := Int.eq_ofNat_of_zero_le (by omega : 0 ≤ w)
  have h1 : 1 ≤ n := by omega
  have h7 : n ≤ 7 := by omega
  simp only [Int.toNat_ofNat]
  interval_cases n <;> rfl

theorem display_renders (L : Libs Area) (inp : CycleInput) (display_buf : List Nat) :
    renders (display_time_and_temp L inp display_buf).events
      = [((display_time_and_temp L inp display_buf).buf,
          L.calc_render_area_buflen L.SSD1306_FULL_SCREEN_AREA)] := by
  rw [display_events]
  cases hdt : inp.dt_ok <;> cases htemp : inp.temp <;>
    by_cases hw : 1 ≤ inp.datetime.date.weekday ∧ inp.datetime.date.weekday ≤ 7 <;>
    simp [renders, datetime_calls, temperature_calls, weekday_calls, hdt, htemp, hw]

theorem display_status_row (L : Libs Area) (inp : CycleInput) (display_buf : List Nat) :
    writesAt 48 (display_time_and_temp L inp display_buf).events = ["RTC + OLED OK"] := by
  rw [display_events]
  cases hdt : inp.dt_ok <;> cases htemp : inp.temp <;>
    by_cases hw : 1 ≤ inp.datetime.date.weekday ∧ inp.datetime.date.weekday ≤ 7 <;>
    simp [writesAt, datetime_calls, temperature_calls, weekday_calls, hdt, htemp, hw]

/-- C3: after a successful read of a datetime with valid fields, the text written at
y=0 is the 8 characters `HH:MM:SS` and the text written at y=12 is the 10 characters
`DD/MM/20YY`, every field as two decimal digits; 10:15:30 on 8/9/25 gives `10:15:30`
and `08/09/2025`. -/
theorem C3_time_and_date_rows (L : Libs Area) (inp : CycleInput) (display_buf : List Nat)
    (hok : inp.dt_ok = true)
    (hh : 0 ≤ inp.datetime.time.hours ∧ inp.datetime.time.hours ≤ 23)
    (hm : 0 ≤ inp.datetime.time.minutes ∧ inp.datetime.time.minutes ≤ 59)
    (hs : 0 ≤ inp.datetime.time.seconds ∧ inp.datetime.time.seconds ≤ 59)
    (hd : 1 ≤ inp.datetime.date.day ∧ inp.datetime.date.day ≤ 31)
    (hmo : 1 ≤ inp.datetime.date.month ∧ inp.datetime.date.month ≤ 12)
    (hy : 0 ≤ inp.datetime.date.year ∧ inp.datetime.date.year ≤ 99) :
    writesAt 0 (display_time_and_temp L inp display_buf).events = [HH_MM_SS inp.datetime] ∧
    (HH_MM_SS inp.datetime).length = 8 ∧
    writesAt 12 (display_time_and_temp L inp display_buf).events
      = [DD_MM_20YY inp.datetime] ∧
    (DD_MM_20YY inp.datetime).length = 10 ∧
    HH_MM_SS demoDatetime = "10:15:30" ∧ DD_MM_20YY demoDatetime = "08/09/2025" := by
  have htime : sprintf_time inp.datetime = HH_MM_SS inp.datetime := by
    simp only [sprintf_time, HH_MM_SS]
    rw [fmt_02d_two_digits _ hh.1 (by omega), fmt_02d_two_digits _ hm.1 (by omega),
      fmt_02d_two_digits _ hs.1 (by omega)]
  have hdate : sprintf_date inp.datetime = DD_MM_20YY inp.datetime := by
    simp only [sprintf_date, DD_MM_20YY]
    rw [fmt_02d_two_digits _ (by omega) (by omega : inp.datetime.date.day < 100),
      fmt_02d_two_digits _ (by omega) (by omega : inp.datetime.date.month < 100),
      fmt_02d_two_digits _ hy.1 (by omega)]
    simp
  have hrow := writesAt_time_row L inp display_buf
  rw [hok, htime, hdate] at hrow
  refine ⟨by simpa using hrow.1, rfl, by simpa using hrow.2, rfl, by decide, by decide⟩

/-- Witness for C3: the reading 10:15:30 on 08/09/25 satisfies every range. -/
theorem C3_time_and_date_rows_witness :
    ((demoEnv 0).dt_ok = true ∧
      (0 ≤ (demoEnv 0).datetime.time.hours ∧ (demoEnv 0).datetime.time.hours ≤ 23) ∧
      (0 ≤ (demoEnv 0).datetime.time.minutes ∧ (demoEnv 0).datetime.time.minutes ≤ 59) ∧
      (0 ≤ (demoEnv 0).datetime.time.seconds ∧ (demoEnv 0).datetime.time.seconds ≤ 59) ∧
      (1 ≤ (demoEnv 0).datetime.date.day ∧ (demoEnv 0).datetime.date.day ≤ 31) ∧
      (1 ≤ (demoEnv 0).datetime.date.month ∧ (demoEnv 0).datetime.date.month ≤ 12) ∧
      (0 ≤ (demoEnv 0).datetime.date.year ∧ (demoEnv 0).datetime.date.year ≤ 99)) ∧
    writesAt 0 (display_time_and_temp demoLibs (demoEnv 0) []).events
      = [HH_MM_SS (demoEnv 0).datetime] ∧
    (HH_MM_SS (demoEnv 0).datetime).length = 8 ∧
    writesAt 12 (display_time_and_temp demoLibs (demoEnv 0) []).events
      = [DD_MM_20YY (demoEnv 0).datetime] ∧
    (DD_MM_20YY (demoEnv 0).datetime).length = 10 ∧
    HH_MM_SS demoDatetime = "10:15:30" ∧ DD_MM_20YY demoDatetime = "08/09/2025" :=
  ⟨by decide, C3_time_and_date_rows demoLibs (demoEnv 0) [] (by decide) (by decide) (by decide)
    (by decide) (by decide) (by decide) (by decide)⟩

/-- C4: after a successful datetime read with weekday `w`: when `1 ≤ w ≤ 7` the text
written at y=36 is entry `w` of MON..SUN; otherwise nothing is written at y=36 and
the buffer is the cleared buffer with only the other rows written.  In both cases the
temperature row and the status row are written and the buffer is rendered. -/
theorem C4_weekday_row (L : Libs Area) (inp : CycleInput) (display_buf : List Nat)
    (hok : inp.dt_ok = true) :
    (1 ≤ inp.datetime.date.weekday ∧ inp.datetime.date.weekday ≤ 7 →
      writesAt 36 (display_time_and_temp L inp display_buf).events
        = [weekday_names.getD (inp.datetime.date.weekday.toNat - 1) ""]) ∧
    (¬ (1 ≤ inp.datetime.date.weekday ∧ inp.datetime.date.weekday ≤ 7) →
      writesAt 36 (display_time_and_temp L inp display_buf).events = [] ∧
      (display_time_and_temp L inp display_buf).buf
        = replay L ([Event.WriteString 0 0 (sprintf_time inp.datetime),
              Event.WriteString 0 12 (sprintf_date inp.datetime),
              Event.WriteString 0 24 (temp_row inp.temp),
              Event.WriteString 0 48 "RTC + OLED OK"])
            (List.replicate L.SSD1306_BUF_LEN 0)) ∧
    writesAt 24 (display_time_and_temp L inp display_buf).events = [temp_row inp.temp] ∧
    writesAt 48 (display_time_and_temp L inp display_buf).events = ["RTC + OLED OK"] ∧
    renders (display_time_and_temp L inp display_buf).events
      = [((display_time_and_temp L inp display_buf).buf,
          L.calc_render_area_buflen L.SSD1306_FULL_SCREEN_AREA)] := by
  refine ⟨?_, ?_, ?_, display_status_row L inp display_buf,
    display_renders L inp display_buf⟩
  · intro hw
    rw [writesAt_weekday_row, if_pos hw, weekdays_entry _ hw]
  · intro hw
    refine ⟨by rw [writesAt_weekday_row, if_neg hw], ?_⟩
    rw [display_buf_replay]
    cases htemp : inp.temp <;>
      simp [datetime_calls, temperature_calls, weekday_calls, hok, htemp, hw, replay,
        temp_row]
  · rw [display_events]
    cases htemp : inp.temp <;>
      by_cases hw : 1 ≤ inp.datetime.date.weekday ∧ inp.datetime.date.weekday ≤ 7 <;>
      simp [writesAt, datetime_calls, temperature_calls, weekday_calls, hok, htemp, hw,
        temp_row]

/-- Witness for C4: a successful read with weekday 1 writes `MON` at y=36. -/
theorem C4_weekday_row_witness :
    (demoEnv 0).dt_ok = true ∧
    (1 ≤ (demoEnv 0).datetime.date.weekday ∧ (demoEnv 0).datetime.date.weekday ≤ 7) ∧
    writesAt 36 (display_time_and_temp demoLibs (demoEnv 0) []).events = ["MON"] :=
  ⟨by decide, by decide,
    ((C4_weekday_row demoLibs (demoEnv 0) [] (by decide)).1 (by decide)).trans (by decide)⟩

/-- C5: for every outcome of the two reads and every weekday value, the text written
at y=48 is exactly `RTC + OLED OK`. -/
theorem C5_status_row (L : Libs Area) (inp : CycleInput) (display_buf : List Nat) :
    writesAt 48 (display_time_and_temp L inp display_buf).events = ["RTC + OLED OK"] :=
  display_status_row L inp display_buf

theorem loop_body_events (L : Libs Area) (inp : CycleInput) (st : LoopSt) :
    (loop_body L inp st).1 = (display_time_and_temp L inp st.display_buf).events
      ++ (if Int.tmod st.loop_count 30 = 0
            then [Event.printf status_fmt [Arg.int st.loop_count]] else [])
      ++ (if st.loop_count < INT_MAX then [Event.sleep_ms 1000] else []) := by
  unfold loop_body
  by_cases h30 : Int.tmod st.loop_count 30 = 0 <;>
    by_cases hmax : st.loop_count < INT_MAX <;> simp [h30, hmax, call]

theorem loop_body_next (L : Libs Area) (inp : CycleInput) (st : LoopSt) :
    (loop_body L inp st).2 =
      if st.loop_count < INT_MAX then
        some { display_buf := (display_time_and_temp L inp st.display_buf).buf,
               loop_count := st.loop_count + 1 }
      else none := by
  unfold loop_body
  by_cases h30 : Int.tmod st.loop_count 30 = 0 <;>
    by_cases hmax : st.loop_count < INT_MAX <;> simp [h30, hmax, call]

theorem loop_body_renders (L : Libs Area) (inp : CycleInput) (st : LoopSt) :
    renders (loop_body L inp st).1
      = [((display_time_and_temp L inp st.display_buf).buf,
          L.calc_render_area_buflen L.SSD1306_FULL_SCREEN_AREA)] := by
  have hd := display_renders L inp st.display_buf
  rw [loop_body_events]
  unfold renders at hd ⊢
  by_cases h30 : Int.tmod st.loop_count 30 = 0 <;>
    by_cases hmax : st.loop_count < INT_MAX <;> simp [h30, hmax, hd]

/-- C6: one pass through the loop body calls `render` exactly once, for every sensor
outcome, with the composed display buffer and the full-screen area as updated by
`calc_render_area_buflen`; that call is the last one of `display_time_and_temp`, right
after `calc_render_area_buflen`, and no earlier call is a render. -/
theorem C6_render_once (L : Libs Area) (env : Nat → CycleInput) (inp : CycleInput)
    (st st0 : LoopSt) (n : Nat) :
    renders (loop_body L inp st).1
      = [((display_time_and_temp L inp st.display_buf).buf,
          L.calc_render_area_buflen L.SSD1306_FULL_SCREEN_AREA)] ∧
    (∃ before : List (Event Area),
      (display_time_and_temp L inp st.display_buf).events
        = before ++ [Event.calc_render_area_buflen L.SSD1306_FULL_SCREEN_AREA,
            Event.render (display_time_and_temp L inp st.display_buf).buf
              (L.calc_render_area_buflen L.SSD1306_FULL_SCREEN_AREA)] ∧
      renders before = []) ∧
    renders (iteration_events L env st0 n)
      = (match loop_state L env st0 n with
         | some s => [((display_time_and_temp L (env n) s.display_buf).buf,
                        L.calc_render_area_buflen L.SSD1306_FULL_SCREEN_AREA)]
         | none => []) := by
  refine ⟨loop_body_renders L inp st, ?_, ?_⟩
  · refine ⟨[Event.CLEAR_BUFFER, Event.ds3231_read_datetime] ++ datetime_calls inp
        ++ [Event.ds3231_read_temperature] ++ temperature_calls inp ++ weekday_calls inp
        ++ [Event.WriteString 0 48 "RTC + OLED OK"], ?_, ?_⟩
    · rw [display_events]
      simp
    · cases hdt : inp.dt_ok <;> cases htemp : inp.temp <;>
        by_cases hw : 1 ≤ inp.datetime.date.weekday ∧ inp.datetime.date.weekday ≤ 7 <;>
        simp [renders, datetime_calls, temperature_calls, weekday_calls, hdt, htemp, hw]
  · unfold iteration_events
    cases hst : loop_state L env st0 n with
    | none => simp [renders]
    | some s => simpa using loop_body_renders L (env n) s

/-- C7: the first call of every composition pass is the clear, the composed buffer is
the replay of the writes that follow on the all-zero buffer, and two passes with the
same sensor results started on different buffers produce the same buffer and hand the
same buffer to `render`. -/
theorem C7_buffer_independent (L : Libs Area) (inp : CycleInput) (b1 b2 : List Nat) :
    (∃ rest : List (Event Area),
      (display_time_and_temp L inp b1).events = Event.CLEAR_BUFFER :: rest ∧
      (display_time_and_temp L inp b1).buf
        = replay L rest (List.replicate L.SSD1306_BUF_LEN 0)) ∧
    (display_time_and_temp L inp b1).buf = (display_time_and_temp L inp b2).buf ∧
    renders (display_time_and_temp L inp b1).events
      = renders (display_time_and_temp L inp b2).events := by
  have hsame : display_time_and_temp L inp b1 = display_time_and_temp L inp b2 := rfl
  refine ⟨?_, by rw [hsame], by rw [hsame]⟩
  refine ⟨_, by rw [display_events]; rfl, ?_⟩
  rw [display_buf_replay]
  cases hdt : inp.dt_ok <;> cases htemp : inp.temp <;>
    by_cases hw : 1 ≤ inp.datetime.date.weekday ∧ inp.datetime.date.weekday ≤ 7 <;>
    simp [datetime_calls, temperature_calls, weekday_calls, hdt, htemp, hw, replay]

/-- When both probes succeed `main` does not return: it shows the start-up message,
renders it, and enters the loop. -/
theorem main_running (L : Libs Area) (boot : Boot) (env : Nat → CycleInput) (iters : Nat)
    (hi : boot.init_ok = true) (hp : boot.present = true) :
    (main L boot env iters).exit = none ∧
    Event.printf "Starting main loop...\n" [] ∈ (main L boot env iters).events ∧
    Event.render
        (L.WriteCentered (L.WriteCentered (List.replicate L.SSD1306_BUF_LEN 0) 16 "RTC Clock")
          32 "Starting...")
        (L.calc_render_area_buflen L.SSD1306_FULL_SCREEN_AREA)
      ∈ (main L boot env iters).events := by
  simp [main, startup, splash, setup_i2c_ports, call, render_full_screen, WriteCentered,
    SSD1306_CLEAR_BUFFER, hi, hp]

/-- C8: when `ds3231_init` or `ds3231_is_present` returns false, `main` returns -1,
which is not 0, whatever number of loop iterations is observed; up to that return it
has made no call of `render`, no clear or write of the display buffer, no sensor read,
and has not announced the main loop. -/
theorem C8_startup_failure (L : Libs Area) (boot : Boot) (env : Nat → CycleInput)
    (iters : Nat) (h : boot.init_ok = false ∨ boot.present = false) :
    (main L boot env iters).exit = some (-1) ∧ (-1 : Int) ≠ 0 ∧
    renders (main L boot env iters).events = [] ∧
    buffer_calls (main L boot env iters).events = [] ∧
    Event.ds3231_read_datetime ∉ (main L boot env iters).events ∧
    Event.ds3231_read_temperature ∉ (main L boot env iters).events ∧
    Event.printf "Starting main loop...\n" [] ∉ (main L boot env iters).events := by
  cases hi : boot.init_ok <;> cases hp : boot.present <;>
    simp_all [main, startup, setup_i2c_ports, call, renders, buffer_calls]

/-- Witness for C8: the chip initialises but does not answer the presence probe. -/
theorem C8_startup_failure_witness :
    ((Boot.mk true false).init_ok = false ∨ (Boot.mk true false).present = false) ∧
    (main demoLibs (Boot.mk true false) demoEnv 3).exit = some (-1) :=
  ⟨by decide, (C8_startup_failure demoLibs (Boot.mk true false) demoEnv 3 (by decide)).1⟩

theorem display_status_lines (L : Libs Area) (inp : CycleInput) (display_buf : List Nat) :
    status_lines (display_time_and_temp L inp display_buf).events = [] := by
  rw [display_events]
  cases hdt : inp.dt_ok <;> cases htemp : inp.temp <;>
    by_cases hw : 1 ≤ inp.datetime.date.weekday ∧ inp.datetime.date.weekday ≤ 7 <;>
    simp [status_lines, status_fmt, datetime_calls, temperature_calls, weekday_calls, hdt,
      htemp, hw]

theorem loop_body_status_lines (L : Libs Area) (inp : CycleInput) (st : LoopSt) :
    status_lines (loop_body L inp st).1
      = if Int.tmod st.loop_count 30 = 0 then [[Arg.int st.loop_count]] else [] := by
  have hd := display_status_lines L inp st.display_buf
  rw [loop_body_events]
  unfold status_lines at hd ⊢
  by_cases h30 : Int.tmod st.loop_count 30 = 0 <;>
    by_cases hmax : st.loop_count < INT_MAX <;> simp [h30, hmax, hd]

theorem loop_state_count (L : Libs Area) (env : Nat → CycleInput) (b : List Nat) (n : Nat)
    (h : (n : Int) ≤ INT_MAX) :
    ∃ st, loop_state L env { display_buf := b, loop_count := 0 } n = some st ∧
      st.loop_count = n := by
  induction n with
  | zero => exact ⟨_, rfl, rfl⟩
  | succ k ih =>
    have hk : (k : Int) < INT_MAX := by
      have : ((k + 1 : Nat) : Int) = (k : Int) + 1 := by push_cast; rfl
      omega
    obtain ⟨st, hst, hc⟩ := ih (le_of_lt hk)
    refine ⟨{ display_buf := (display_time_and_temp L (env k) st.display_buf).buf,
              loop_count := st.loop_count + 1 }, ?_, ?_⟩
    · simp only [loop_state, hst, Option.some_bind, loop_body_next]
      rw [if_pos (by rw [hc]; exact hk)]
    · simp [hc]

/-- The loop does not get past the iteration in which `loop_count` is `INT_MAX`. -/
theorem loop_state_overflow (L : Libs Area) (env : Nat → CycleInput) (b : List Nat) :
    loop_state L env { display_buf := b, loop_count := 0 } 2147483648 = none := by
  obtain ⟨st, hst, hc⟩ := loop_state_count L env b 2147483647 (by decide)
  have hstep : loop_state L env { display_buf := b, loop_count := 0 } (2147483647 + 1)
      = (loop_state L env { display_buf := b, loop_count := 0 } 2147483647).bind
          (fun st => (loop_body L (env 2147483647) st).2) := rfl
  have hnot : ¬ st.loop_count < INT_MAX := by
    rw [hc]
    decide
  have h2 : (2147483648 : Nat) = 2147483647 + 1 := rfl
  rw [h2, hstep, hst, Option.some_bind, loop_body_next, if_neg hnot]

/-- On a target where `loop_count++` wraps instead, the counter no longer equals the
iteration number from iteration `2^31` on, and the test `loop_count % 30 == 0` fails in
iteration 2147483670 although that number is a multiple of 30. -/
theorem wraparound_breaks_period :
    wrap_int32 2147483647 = INT_MAX ∧ wrap_int32 2147483648 = -2147483648 ∧
    (2147483670 : Nat) % 30 = 0 ∧ Int.tmod (wrap_int32 2147483670) 30 ≠ 0 := by
  decide

/-- C9: with `loop_count` a 32-bit `int` starting at 0, every iteration `n` up to
`INT_MAX` is reached with `loop_count = n`, and it prints the status line, once and
with the argument `n`, exactly when `n` is a multiple of 30. -/
theorem C9_status_every_30th (L : Libs Area) (env : Nat → CycleInput) (b : List Nat)
    (n : Nat) (h : (n : Int) ≤ INT_MAX) :
    ∃ st, loop_state L env { display_buf := b, loop_count := 0 } n = some st ∧
      st.loop_count = n ∧
      status_lines (iteration_events L env { display_buf := b, loop_count := 0 } n)
        = (if n % 30 = 0 then [[Arg.int n]] else []) := by
  obtain ⟨st, hst, hc⟩ := loop_state_count L env b n h
  refine ⟨st, hst, hc, ?_⟩
  have hmod : Int.tmod (n : Int) 30 = ((n % 30 : Nat) : Int) := rfl
  simp only [iteration_events, hst, loop_body_status_lines, hc]
  rw [hmod]
  by_cases h30 : n % 30 = 0
  · rw [if_pos h30, if_pos (by rw [h30]; rfl)]
  · have hne : ¬ ((n % 30 : Nat) : Int) = 0 := by exact_mod_cast h30
    rw [if_neg h30, if_neg hne]

/-- Witness for C9: iteration 60. -/
theorem C9_status_every_30th_witness :
    ((60 : Nat) : Int) ≤ INT_MAX ∧
    ∃ st, loop_state demoLibs demoEnv { display_buf := [], loop_count := 0 } 60 = some st ∧
      st.loop_count = (60 : Nat) ∧
      status_lines (iteration_events demoLibs demoEnv { display_buf := [], loop_count := 0 } 60)
        = (if 60 % 30 = 0 then [[Arg.int (60 : Nat)]] else []) :=
  ⟨by decide, C9_status_every_30th demoLibs demoEnv [] 60 (by decide)⟩

/-- C10: the weekday test does not look at the result of the datetime read.  In a
cycle whose read fails, y=0 gets `RTC ERROR!`, and y=36 gets the abbreviation for the
weekday left in the record whenever that value is in 1..7; y=36 is left alone exactly
when the value is outside 1..7.  Such a cycle exists: a leftover 3 shows `RTC ERROR!`
together with `WED`. -/
theorem C10_weekday_unguarded (L : Libs Area) (inp : CycleInput) (display_buf : List Nat)
    (h : inp.dt_ok = false) :
    writesAt 0 (display_time_and_temp L inp display_buf).events = ["RTC ERROR!"] ∧
    (1 ≤ inp.datetime.date.weekday ∧ inp.datetime.date.weekday ≤ 7 →
      writesAt 36 (display_time_and_temp L inp display_buf).events
        = [weekday_names.getD (inp.datetime.date.weekday.toNat - 1) ""]) ∧
    (writesAt 36 (display_time_and_temp L inp display_buf).events = [] ↔
      ¬ (1 ≤ inp.datetime.date.weekday ∧ inp.datetime.date.weekday ≤ 7)) ∧
    (∃ failed : CycleInput, failed.dt_ok = false ∧
      writesAt 0 (display_time_and_temp L failed display_buf).events = ["RTC ERROR!"] ∧
      writesAt 36 (display_time_and_temp L failed display_buf).events = ["WED"]) := by
  have hrow := (writesAt_time_row L inp display_buf).1
  rw [h] at hrow
  refine ⟨by simpa using hrow, ?_, ?_, demoFailedRead, rfl, ?_, ?_⟩
  · intro hw
    rw [writesAt_weekday_row, if_pos hw, weekdays_entry _ hw]
  · rw [writesAt_weekday_row]
    by_cases hw : 1 ≤ inp.datetime.date.weekday ∧ inp.datetime.date.weekday ≤ 7 <;>
      simp [hw]
  · have := (writesAt_time_row L demoFailedRead display_buf).1
    simpa [demoFailedRead] using this
  · rw [writesAt_weekday_row]
    decide

/-- Witness for C10: the failed read of `demoFailedRead`, whose record holds weekday 3. -/
theorem C10_weekday_unguarded_witness :
    demoFailedRead.dt_ok = false ∧
    writesAt 0 (display_time_and_temp demoLibs demoFailedRead []).events = ["RTC ERROR!"] ∧
    writesAt 36 (display_time_and_temp demoLibs demoFailedRead []).events = ["WED"] :=
  ⟨by decide, (C10_weekday_unguarded demoLibs demoFailedRead [] (by decide)).1,
    ((C10_weekday_unguarded demoLibs demoFailedRead [] (by decide)).2.1 (by decide)).trans
      (by decide)⟩

end PicoTest
